import Mathlib

/-!
Shallow embedding of `oauth2_provider/views/oidc.py` (OIDC discovery, JWKS and
RP-Initiated Logout views) and proofs about the spec's claims.

External collaborators (client store, ID-token validator, Django settings,
session manager) are modelled as an explicit environment of functions and
configuration values; the view code itself is translated statement by
statement from the Python source.
-/

namespace Oidc

/-- Registered client application, as used by the logout view.  The fields
used by the source are `client_id`, `client_type`, the registered post-logout
redirect URIs and the derived allowed schemes.  The model class itself is an
external collaborator (`..models`), so the two methods below are modelled
from the spec. -/
structure Application where
  client_id : String
  client_type : String
  post_logout_redirect_uris : List String
deriving DecidableEq

/-- Modelled from the spec: `Client.AllowedSchemes()` of the external client
store — "allowed URI schemes (derived: `https` always; `http` only if
confidential)". -/
def Application.get_allowed_schemes (app : Application) : List String :=
  if app.client_type = "confidential" then ["https", "http"] else ["https"]

/-- Modelled from the spec: `Client.IsPostLogoutRedirectAllowed(uri)` of the
external client store — membership in the client's registered post-logout
redirect list, "exact match, no pattern matching". -/
def Application.post_logout_redirect_uri_allowed (app : Application) (uri : String) : Bool :=
  uri ∈ app.post_logout_redirect_uris

/-- Validated ID-token claims: the token's user (subject) and the application
it was issued to, as accessed by `validate_logout_request`
(`id_token.user`, `id_token.application`). -/
structure IDToken where
  user : String
  application : Application
deriving DecidableEq

/-- The failure taxonomy raised by the logout views (`..exceptions`). -/
inductive OIDCError where
  | InvalidIDTokenError : OIDCError
  | ClientIdMissmatch : OIDCError
  | InvalidOIDCClientError : OIDCError
  | InvalidOIDCRedirectURIError : String → OIDCError
  | LogoutDenied : OIDCError
deriving DecidableEq

/-- Modelled from the spec: the exceptions module is outside this excerpt;
the spec only requires that "every failure surfaces as a user-visible error
response with a distinct status code", so each kind is given a distinct
code here. -/
def OIDCError.status_code : OIDCError → Nat
  | .InvalidIDTokenError => 400
  | .ClientIdMissmatch => 400
  | .InvalidOIDCClientError => 401
  | .InvalidOIDCRedirectURIError _ => 402
  | .LogoutDenied => 403

/-- A Python exception escaping `validate_logout_request`: either one of the
`OIDCError` kinds (caught by the views), or an exception of the external
collaborators that is *not* an `OIDCError` — `Application.DoesNotExist`
raised by `objects.get` on an unknown `client_id`, and the `AttributeError`
of calling `get_allowed_schemes` on `None`. -/
inductive PyExc where
  | oidc : OIDCError → PyExc
  | doesNotExist : PyExc
  | attributeError : PyExc
deriving DecidableEq

/-- The environment of external collaborators and settings consumed by the
views: `validator._load_id_token`, `Application.objects.get`, and the
`oauth2_settings` values the source reads. -/
structure Env where
  /-- `validator._load_id_token`: returns the token's claims, or `none` when
  the hint is unparseable, unverifiable or expired. -/
  load_id_token : String → Option IDToken
  /-- `Application.objects.get(client_id=...)`: `none` models the
  `DoesNotExist` exception. -/
  findClient : String → Option Application
  /-- `oauth2_settings.OIDC_RP_INITIATED_LOGOUT_ALWAYS_PROMPT` -/
  always_prompt : Bool
  /-- `oauth2_settings.ALLOWED_REDIRECT_URI_SCHEMES` -/
  allowed_redirect_uri_schemes : List String
  /-- `self.request.build_absolute_uri("/")`: the application's own root. -/
  root : String
  /-- `oauth2_settings.OIDC_RSA_PRIVATE_KEY` (a falsy value means unset). -/
  oidc_rsa_private_key : Option String
  /-- `oauth2_settings.OIDC_RSA_PRIVATE_KEYS_INACTIVE` -/
  oidc_rsa_private_keys_inactive : List String
  /-- `jwk.JWK.from_pem(pem).thumbprint()` of the external key provider:
  a deterministic content-derived fingerprint of the key material. -/
  thumbprint : String → String
  /-- `oauth2_settings.OIDC_JWKS_MAX_AGE_SECONDS` -/
  oidc_jwks_max_age_seconds : Nat

/-- Python truthiness of an optional request parameter: absent (`None`) and
the empty string are falsy. -/
def truthy : Option String → Bool
  | none => false
  | some s => s ≠ ""

/-- The underlying string of an optional parameter (only relevant when the
parameter is truthy). -/
def optval (o : Option String) : String := o.getD ""

/-- Scheme extraction of `urllib.parse.urlparse(uri)[0]`: the part before the
first colon when it is a well-formed scheme (a letter followed by letters,
digits, `+`, `-` or `.`), lowercased; otherwise the empty string. -/
def isSchemeChar (c : Char) : Bool :=
  c.isAlpha || c.isDigit || c = '+' || c = '-' || c = '.'

def schemeOf (uri : String) : String :=
  let pre := uri.data.takeWhile (fun c => c ≠ ':')
  if pre.length < uri.data.length &&
      (match pre with
       | [] => false
       | c :: cs => c.isAlpha && cs.all isSchemeChar) then
    String.mk (pre.map Char.toLower)
  else ""

/-- Lines 161–179 of `validate_logout_request`: validate the `id_token_hint`
when given, decide the provisional `must_prompt_logout`, and check the
explicit `client_id` against the token's client. -/
def check_id_token_hint (env : Env) (user : String)
    (id_token_hint client_id : Option String) :
    Except PyExc (Option IDToken × Bool) :=
  if truthy id_token_hint then
    match env.load_id_token (optval id_token_hint) with
    | none => Except.error (PyExc.oidc OIDCError.InvalidIDTokenError)
    | some id_token =>
      let must_prompt_logout := if id_token.user = user then false else true
      if truthy client_id then
        if id_token.application.client_id ≠ optval client_id then
          Except.error (PyExc.oidc OIDCError.ClientIdMissmatch)
        else
          Except.ok (some id_token, must_prompt_logout)
      else
        Except.ok (some id_token, must_prompt_logout)
  else
    Except.ok (none, true)

/-- Lines 185–190 of `validate_logout_request`: determine the application
that is requesting the logout — the explicit `client_id` lookup when given
(raising `DoesNotExist` on an unknown id), else the validated ID token's
application, else none. -/
def resolve_application (env : Env) (client_id : Option String)
    (id_token : Option IDToken) : Except PyExc (Option Application) :=
  if truthy client_id then
    match env.findClient (optval client_id) with
    | none => Except.error PyExc.doesNotExist
    | some application => Except.ok (some application)
  else
    match id_token with
    | some id_token => Except.ok (some id_token.application)
    | none => Except.ok none

/-- Lines 192–204 of `validate_logout_request`: validate
`post_logout_redirect_uri` when given. -/
def validate_post_logout_redirect_uri (post_logout_redirect_uri : Option String)
    (application : Option Application) : Except PyExc Unit :=
  if truthy post_logout_redirect_uri then
    match application with
    | none => Except.error (PyExc.oidc OIDCError.InvalidOIDCClientError)
    | some application =>
      let scheme := schemeOf (optval post_logout_redirect_uri)
      if scheme = "" then
        Except.error (PyExc.oidc
          (OIDCError.InvalidOIDCRedirectURIError "A Scheme is required for the redirect URI."))
      else if scheme = "http" ∧ application.client_type ≠ "confidential" then
        Except.error (PyExc.oidc
          (OIDCError.InvalidOIDCRedirectURIError "http is only allowed with confidential clients."))
      else if scheme ∉ application.get_allowed_schemes then
        Except.error (PyExc.oidc
          (OIDCError.InvalidOIDCRedirectURIError
            ("Redirect to scheme \"" ++ scheme ++ "\" is not permitted.")))
      else if ¬ application.post_logout_redirect_uri_allowed (optval post_logout_redirect_uri) then
        Except.error (PyExc.oidc
          (OIDCError.InvalidOIDCRedirectURIError "This client does not have this redirect uri registered."))
      else
        Except.ok ()
  else
    Except.ok ()

/-- `validate_logout_request(user, id_token_hint, client_id,
post_logout_redirect_uri)` (lines 145–206): returns
`(prompt_logout, (post_logout_redirect_uri, application))` or raises. -/
def validate_logout_request (env : Env) (user : String)
    (id_token_hint client_id post_logout_redirect_uri : Option String) :
    Except PyExc (Bool × (Option String × Option Application)) :=
  match check_id_token_hint env user id_token_hint client_id with
  | Except.error e => Except.error e
  | Except.ok (id_token, must_prompt_logout) =>
    let prompt_logout := must_prompt_logout || env.always_prompt
    match resolve_application env client_id id_token with
    | Except.error e => Except.error e
    | Except.ok application =>
      match validate_post_logout_redirect_uri post_logout_redirect_uri application with
      | Except.error e => Except.error e
      | Except.ok _ => Except.ok (prompt_logout, (post_logout_redirect_uri, application))

/-- The four request parameters that `RPInitiatedLogoutView.get` reads from
the query string (and also the data it retains for the confirmation form). -/
structure LogoutParams where
  id_token_hint : Option String
  client_id : Option String
  post_logout_redirect_uri : Option String
  state : Option String
deriving DecidableEq

/-- The cleaned confirmation-form data read by
`RPInitiatedLogoutView.form_valid`: the round-tripped request parameters plus
the user's `allow` choice. -/
structure ConfirmFormData where
  id_token_hint : Option String
  client_id : Option String
  post_logout_redirect_uri : Option String
  state : Option String
  allow : Bool
deriving DecidableEq

/-- Observable outcome of one logout entry point. -/
inductive Response where
  /-- `error_response`: a rendered error payload with the error's status code. -/
  | errorResponse : OIDCError → Nat → Response
  /-- `OAuth2ResponseRedirect(uri, allowed_schemes)`. -/
  | redirect : String → List String → Response
  /-- The rendered confirmation form, carrying the retained `oidc_data` and
  the resolved application (if any) for display. -/
  | confirmationForm : LogoutParams → Option Application → Response
  /-- An exception that is not an `OIDCError` and therefore escapes the
  view's error handling. -/
  | uncaught : PyExc → Response
deriving DecidableEq

/-- Modelled from the spec: `oauthlib.common.add_params_to_uri` — append the
given parameters to the URI's query component. -/
def add_params_to_uri (uri : String) (params : List (String × String)) : String :=
  params.foldl
    (fun u p =>
      if u.data.contains '?' then u ++ "&" ++ p.1 ++ "=" ++ p.2
      else u ++ "?" ++ p.1 ++ "=" ++ p.2)
    uri

/-- `RPInitiatedLogoutView.do_logout` (lines 281–295).  `logout(self.request)`
runs first, so the session is ended (second component `true`) in every branch
— including the branch where `application` is `None` yet a redirect URI is
present, where `application.get_allowed_schemes()` then raises. -/
def do_logout (env : Env) (application : Option Application)
    (post_logout_redirect_uri state : Option String) : Response × Bool :=
  if truthy post_logout_redirect_uri then
    match application with
    | some app =>
      if truthy state then
        (Response.redirect
          (add_params_to_uri (optval post_logout_redirect_uri) [("state", optval state)])
          app.get_allowed_schemes, true)
      else
        (Response.redirect (optval post_logout_redirect_uri) app.get_allowed_schemes, true)
    | none => (Response.uncaught PyExc.attributeError, true)
  else
    (Response.redirect env.root env.allowed_redirect_uri_schemes, true)

/-- `RPInitiatedLogoutView.get` (lines 227–257): validate the query
parameters; on an `OIDCError`, render the error response; on success, log out
directly when no prompt is required, else present the confirmation form.
The second component records whether the session was ended. -/
def rp_get (env : Env) (user : String) (p : LogoutParams) : Response × Bool :=
  match validate_logout_request env user p.id_token_hint p.client_id p.post_logout_redirect_uri with
  | Except.error (PyExc.oidc e) => (Response.errorResponse e e.status_code, false)
  | Except.error e => (Response.uncaught e, false)
  | Except.ok (prompt, (redirect_uri, application)) =>
    if !prompt then
      do_logout env application redirect_uri p.state
    else
      (Response.confirmationForm p application, false)

/-- `RPInitiatedLogoutView.form_valid` (lines 259–279): re-validate the
submitted fields; log out when no prompt is required or the user allowed;
otherwise `LogoutDenied` is raised and rendered as an error response. -/
def rp_form_valid (env : Env) (user : String) (f : ConfirmFormData) : Response × Bool :=
  match validate_logout_request env user f.id_token_hint f.client_id f.post_logout_redirect_uri with
  | Except.error (PyExc.oidc e) => (Response.errorResponse e e.status_code, false)
  | Except.error e => (Response.uncaught e, false)
  | Except.ok (prompt, (redirect_uri, application)) =>
    if !prompt || f.allow then
      do_logout env application redirect_uri f.state
    else
      (Response.errorResponse OIDCError.LogoutDenied OIDCError.LogoutDenied.status_code, false)

/-- One entry of the published JWKS document (the exported public-key fields
of the external `jwk` library are omitted; `alg`, `use` and `kid` are the
fields the source sets itself). -/
structure JwksKey where
  alg : String
  use : String
  kid : String
deriving DecidableEq

/-- The JWKS response: body plus the two headers the source sets. -/
structure JwksGetResponse where
  keys : List JwksKey
  access_control_allow_origin : String
  cache_control : String
deriving DecidableEq

/-- The `Cache-Control` header value built by `JwksInfoView.get`
(lines 115–120): the string literally starts with `"Cache-Control: "`. -/
def jwks_cache_control_header (max_age : Nat) : String :=
  "Cache-Control: public, "
    ++ ("max-age=" ++ toString max_age ++ ", ")
    ++ ("stale-while-revalidate=" ++ toString max_age ++ ", ")
    ++ ("stale-if-error=" ++ toString max_age)

/-- `JwksInfoView.get` (lines 102–121): one key entry per configured RSA key
(current key first, then the inactive ones), empty when no RSA key is
configured; unrestricted cross-origin header; the cache-control header. -/
def jwks_get (env : Env) : JwksGetResponse :=
  let keys :=
    if truthy env.oidc_rsa_private_key then
      (optval env.oidc_rsa_private_key :: env.oidc_rsa_private_keys_inactive).map
        (fun pem => { alg := "RS256", use := "sig", kid := env.thumbprint pem })
    else []
  { keys := keys
    access_control_allow_origin := "*"
    cache_control := jwks_cache_control_header env.oidc_jwks_max_age_seconds }

/-- Line 73 of `ConnectDiscoveryInfoView.get`:
`scopes_supported = [scope for scope in scopes.get_available_scopes()]` —
a plain list comprehension over the Scope Provider's scopes. -/
def scopes_supported (get_available_scopes : List String) : List String :=
  get_available_scopes.map (fun scope => scope)

/-- Follows the spec's words (for comparison with `scopes_supported`):
"`scopes_supported` (deduplicated list from the Scope Provider)". -/
def spec_scopes_supported (get_available_scopes : List String) : List String :=
  get_available_scopes.eraseDups

/-- Follows the spec's words (for comparison with
`jwks_cache_control_header`): "a cache-control header whose value consists of
the public directive plus exactly three directives max-age,
stale-while-revalidate, and stale-if-error, each equal to the one configured
TTL value", with no extraneous text in the header value. -/
def spec_cache_control_value (ttl : Nat) : String :=
  "public, max-age=" ++ toString ttl
    ++ ", stale-while-revalidate=" ++ toString ttl
    ++ ", stale-if-error=" ++ toString ttl

/-! Concrete fixtures used by the witnesses and counterexamples below. -/

/-- A registered confidential client with one registered post-logout URI. -/
def exApp : Application :=
  { client_id := "abc"
    client_type := "confidential"
    post_logout_redirect_uris := ["https://app.example/done"] }

/-- A registered public (non-confidential) client whose registered
post-logout URI uses the `http` scheme. -/
def exPublicApp : Application :=
  { client_id := "pub"
    client_type := "public"
    post_logout_redirect_uris := ["http://app.example/out"] }

/-- An ID token issued by `exApp` for the user `"alice"`. -/
def exToken : IDToken := { user := "alice", application := exApp }

/-- A concrete environment: the hint `"tok"` validates to `exToken`; the
clients `"abc"` and `"pub"` are registered; the always-prompt policy is
disabled. -/
def exEnv : Env :=
  { load_id_token := fun hint => if hint = "tok" then some exToken else none
    findClient := fun cid =>
      if cid = "abc" then some exApp
      else if cid = "pub" then some exPublicApp
      else none
    always_prompt := false
    allowed_redirect_uri_schemes := ["http", "https"]
    root := "https://provider.example/"
    oidc_rsa_private_key := none
    oidc_rsa_private_keys_inactive := []
    thumbprint := fun _ => ""
    oidc_jwks_max_age_seconds := 3600 }

/-- Does this response render an error payload (`error_response`)? -/
def isErrorResponse : Response → Bool
  | .errorResponse _ _ => true
  | _ => false

/-- Is this response a failure outcome (a rendered error payload or an
exception that escaped the view)? -/
def isFailure : Response → Bool
  | .errorResponse _ _ => true
  | .uncaught _ => true
  | _ => false

/-! ## Theorems -/

/-- Success of the redirect-URI section forces a resolved application
whenever a (truthy) redirect URI was supplied. -/
theorem validate_post_ok_isSome {uri : Option String} {app : Option Application}
    (h : validate_post_logout_redirect_uri uri app = Except.ok ())
    (hu : truthy uri = true) : app.isSome = true := by
  cases app with
  | some a => rfl
  | none => simp [validate_post_logout_redirect_uri, hu] at h

/-- Inversion for successful validation: the returned redirect URI is the
request's own `post_logout_redirect_uri`, and the redirect-URI section
accepted it against the returned application. -/
theorem validate_ok_inversion {env : Env} {user : String}
    {hint cid uri : Option String} {b : Bool} {r : Option String}
    {a : Option Application}
    (h : validate_logout_request env user hint cid uri = Except.ok (b, (r, a))) :
    r = uri ∧ validate_post_logout_redirect_uri uri a = Except.ok () := by
  unfold validate_logout_request at h
  cases hc : check_id_token_hint env user hint cid with
  | error e => simp [hc] at h
  | ok p =>
    obtain ⟨tok?, mp⟩ := p
    simp only [hc] at h
    cases hr : resolve_application env cid tok? with
    | error e => simp [hr] at h
    | ok app =>
      simp only [hr] at h
      cases hv : validate_post_logout_redirect_uri uri app with
      | error e => simp [hv] at h
      | ok u =>
        simp only [hv] at h
        cases u
        simp only [Except.ok.injEq, Prod.mk.injEq] at h
        obtain ⟨-, h2, h3⟩ := h
        subst h2; subst h3
        exact ⟨rfl, hv⟩

/-- C10: calling `validate_logout_request` with empty-string values for
`id_token_hint`, `client_id` and `post_logout_redirect_uri` raises no error
and behaves exactly as when all three parameters are absent: the empty hint
is not rejected as `InvalidIDToken`, no client lookup and no redirect
validation occurs (the result is the same for *every* environment), the
prompt flag is `true` irrespective of the always-prompt policy, no
application is resolved, and the downstream termination step treats the two
decisions identically. -/
theorem empty_string_params_like_absent : ∀ (env : Env) (user : String) (st : Option String),
    validate_logout_request env user (some "") (some "") (some "")
      = Except.ok (true, (some "", none)) ∧
    validate_logout_request env user none none none
      = Except.ok (true, (none, none)) ∧
    do_logout env none (some "") st = do_logout env none none st := by
  intro env user st
  exact ⟨rfl, rfl, rfl⟩

/-- C9 counterexample: the discovery document's `scopes_supported` is *not*
deduplicated — on the Scope Provider list `["read", "read"]` the output
contains `"read"` twice, not once, and differs from the spec's deduplicated
list. -/
theorem scopes_supported_not_deduplicated :
    (scopes_supported ["read", "read"]).count "read" = 2 ∧
    (scopes_supported ["read", "read"] == spec_scopes_supported ["read", "read"]) = false := by
  exact ⟨rfl, rfl⟩

/-- C9 (amended): `scopes_supported` is exactly the Scope Provider's list,
preserving order and duplicates (no deduplication is performed). -/
theorem scopes_supported_is_identity : ∀ (scopes : List String),
    scopes_supported scopes = scopes := by
  intro scopes
  simp [scopes_supported]

/-- C8 (code evaluated at the failing input): the JWKS `Cache-Control`
header value is not the well-formed directive list the spec describes — the
code accidentally prefixes the header *value* with the extraneous text
`"Cache-Control: "`, for every TTL value. -/
theorem jwks_cache_control_header_malformed :
    (jwks_get exEnv).cache_control
      = "Cache-Control: public, max-age=3600, stale-while-revalidate=3600, stale-if-error=3600" ∧
    (∀ ttl : Nat, jwks_cache_control_header ttl = "Cache-Control: " ++ spec_cache_control_value ttl) ∧
    ((jwks_get exEnv).cache_control == spec_cache_control_value 3600) = false := by
  refine ⟨rfl, ?_, rfl⟩
  intro ttl
  apply String.ext
  simp only [jwks_cache_control_header, spec_cache_control_value, String.data_append,
    List.append_assoc]
  rfl

/-- C5: the termination step's final redirect — the validated
`post_logout_redirect_uri` with `state` appended as a query parameter when
both are present, the bare validated URI when only it is present, and the
application's own root address together with the globally configured default
allowed-scheme set when no redirect URI was resolved. -/
theorem do_logout_redirect_target : ∀ (env : Env) (app : Application) (uri st : Option String),
    (truthy uri = true → truthy st = true →
      do_logout env (some app) uri st
        = (Response.redirect (add_params_to_uri (optval uri) [("state", optval st)])
            app.get_allowed_schemes, true)) ∧
    (truthy uri = true → truthy st = false →
      do_logout env (some app) uri st
        = (Response.redirect (optval uri) app.get_allowed_schemes, true)) ∧
    (∀ app? : Option Application, truthy uri = false →
      do_logout env app? uri st
        = (Response.redirect env.root env.allowed_redirect_uri_schemes, true)) := by
  intro env app uri st
  refine ⟨?_, ?_, ?_⟩
  · intro hu hs
    simp [do_logout, hu, hs]
  · intro hu hs
    simp [do_logout, hu, hs]
  · intro app? hu
    simp [do_logout, hu]

/-- Witness for C5, Scenario 4 of the spec: allowing the confirmed logout for
`https://app.example/done` with `state=xyz` redirects to
`https://app.example/done?state=xyz`, and an absent redirect URI sends the
user to the provider's root with the default allowed schemes. -/
theorem do_logout_redirect_target_witness :
    do_logout exEnv (some exApp) (some "https://app.example/done") (some "xyz")
      = (Response.redirect "https://app.example/done?state=xyz" exApp.get_allowed_schemes, true) ∧
    do_logout exEnv (some exApp) (some "https://app.example/done") none
      = (Response.redirect "https://app.example/done" exApp.get_allowed_schemes, true) ∧
    do_logout exEnv none none (some "xyz")
      = (Response.redirect "https://provider.example/" ["http", "https"], true) := by
  refine ⟨?_, ?_, ?_⟩
  · exact (do_logout_redirect_target exEnv exApp (some "https://app.example/done") (some "xyz")).1 rfl rfl
  · exact (do_logout_redirect_target exEnv exApp (some "https://app.example/done") none).2.1 rfl rfl
  · exact (do_logout_redirect_target exEnv exApp none (some "xyz")).2.2 none rfl

/-- Characterisation of the provisional prompt decision: `must_prompt_logout`
is relaxed to `false` exactly when a (truthy) hint was supplied and it
validated to an ID token whose subject is the current user. -/
theorem check_ok_must_prompt_iff {env : Env} {user : String}
    {hint cid : Option String} {tok? : Option IDToken} {mp : Bool}
    (h : check_id_token_hint env user hint cid = Except.ok (tok?, mp)) :
    (mp = false ↔
      truthy hint = true ∧
      ∃ tok, env.load_id_token (optval hint) = some tok ∧ tok.user = user) := by
  unfold check_id_token_hint at h
  by_cases ht : truthy hint = true
  · rw [if_pos ht] at h
    cases hl : env.load_id_token (optval hint) with
    | none =>
      simp [hl] at h
    | some tok =>
      simp only [hl] at h
      have hmp : mp = if tok.user = user then false else true := by
        by_cases hc : truthy cid = true
        · rw [if_pos hc] at h
          by_cases hne : tok.application.client_id ≠ optval cid
          · rw [if_pos hne] at h
            exact absurd h (by simp)
          · rw [if_neg hne] at h
            injection h with h1
            injection h1 with h2 h3
            exact h3.symm
        · rw [if_neg hc] at h
          injection h with h1
          injection h1 with h2 h3
          exact h3.symm
      subst hmp
      constructor
      · intro hfalse
        by_cases hu : tok.user = user
        · exact ⟨ht, tok, rfl, hu⟩
        · rw [if_neg hu] at hfalse
          exact absurd hfalse (by simp)
      · rintro ⟨-, tok', hl', hu'⟩
        injection hl' with he
        subst he
        rw [if_pos hu']
  · rw [if_neg ht] at h
    injection h with h1
    injection h1 with h2 h3
    subst h3
    simp [ht]

/-- C1: for every *successful* result of `validate_logout_request`, the
returned prompt flag is `false` iff an `id_token_hint` was supplied, it
validated to an (unexpired) ID token whose subject equals the current user,
and the always-prompt policy switch is disabled; in every other case the
prompt flag is `true`. -/
theorem prompt_false_iff_valid_hint : ∀ (env : Env) (user : String)
    (hint cid uri : Option String) (b : Bool) (r : Option String) (a : Option Application),
    validate_logout_request env user hint cid uri = Except.ok (b, (r, a)) →
    (b = false ↔
      truthy hint = true ∧
      (∃ tok, env.load_id_token (optval hint) = some tok ∧ tok.user = user) ∧
      env.always_prompt = false) := by
  intro env user hint cid uri b r a h
  unfold validate_logout_request at h
  cases hc : check_id_token_hint env user hint cid with
  | error e => simp [hc] at h
  | ok p =>
    obtain ⟨tok?, mp⟩ := p
    simp only [hc] at h
    cases hr : resolve_application env cid tok? with
    | error e => simp [hr] at h
    | ok app =>
      simp only [hr] at h
      cases hv : validate_post_logout_redirect_uri uri app with
      | error e => simp [hv] at h
      | ok u =>
        cases u
        simp only [hv, Except.ok.injEq, Prod.mk.injEq] at h
        obtain ⟨h1, -, -⟩ := h
        subst h1
        have hiff := check_ok_must_prompt_iff hc
        constructor
        · intro hb
          simp only [Bool.or_eq_false_iff] at hb
          obtain ⟨hmp, hap⟩ := hb
          obtain ⟨h1, h2⟩ := hiff.mp hmp
          exact ⟨h1, h2, hap⟩
        · rintro ⟨h1, h2, h3⟩
          have hmp := hiff.mpr ⟨h1, h2⟩
          simp [hmp, h3]

/-- Witness for C1: in `exEnv` (always-prompt disabled) the hint `"tok"`
validates to `exToken` for the current user `"alice"`, and the returned
prompt flag is indeed `false`. -/
theorem prompt_false_iff_valid_hint_witness :
    (false = false ↔
      truthy (some "tok") = true ∧
      (∃ tok, exEnv.load_id_token (optval (some "tok")) = some tok ∧ tok.user = "alice") ∧
      exEnv.always_prompt = false) :=
  prompt_false_iff_valid_hint exEnv "alice" (some "tok") none none false none (some exApp) rfl

/-- C2: when both a (truthy) `client_id` and a (truthy) `id_token_hint` are
supplied and the hint validates to an ID token whose issuing client's
identifier differs from the supplied `client_id`, validation fails with
`ClientIdMissmatch` — for every `post_logout_redirect_uri`, i.e. before any
redirect-URI validation is attempted. -/
theorem client_id_mismatch_fails : ∀ (env : Env) (user : String)
    (hint cid uri : Option String) (tok : IDToken),
    truthy hint = true → truthy cid = true →
    env.load_id_token (optval hint) = some tok →
    tok.application.client_id ≠ optval cid →
    validate_logout_request env user hint cid uri
      = Except.error (PyExc.oidc OIDCError.ClientIdMissmatch) := by
  intro env user hint cid uri tok ht hc hl hm
  unfold validate_logout_request check_id_token_hint
  simp [ht, hc, hl, hm]

/-- Witness for C2: the hint `"tok"` was issued to client `"abc"`, the
request names client `"other"`, and validation fails with
`ClientIdMissmatch` even though the supplied redirect URI (`"whatever"`,
which has no scheme) would itself be rejected had it been examined. -/
theorem client_id_mismatch_fails_witness :
    validate_logout_request exEnv "alice" (some "tok") (some "other") (some "whatever")
      = Except.error (PyExc.oidc OIDCError.ClientIdMissmatch) :=
  client_id_mismatch_fails exEnv "alice" (some "tok") (some "other") (some "whatever")
    exToken rfl rfl rfl (by decide)

/-- C3: the decision invariant — in every successful result a (truthy)
returned redirect URI comes with a resolved application; and a request that
supplies a `post_logout_redirect_uri` while neither a `client_id` nor an
`id_token_hint` is supplied (so no client can be resolved) fails with
`InvalidOIDCClientError`. -/
theorem redirect_requires_client : ∀ (env : Env) (user : String)
    (hint cid uri : Option String) (b : Bool) (r : Option String) (a : Option Application),
    (validate_logout_request env user hint cid uri = Except.ok (b, (r, a)) →
      truthy r = true → a.isSome = true) ∧
    (truthy hint = false → truthy cid = false → truthy uri = true →
      validate_logout_request env user hint cid uri
        = Except.error (PyExc.oidc OIDCError.InvalidOIDCClientError)) := by
  intro env user hint cid uri b r a
  constructor
  · intro h hr
    obtain ⟨h1, h2⟩ := validate_ok_inversion h
    subst h1
    exact validate_post_ok_isSome h2 hr
  · intro ht hc hu
    unfold validate_logout_request check_id_token_hint resolve_application
      validate_post_logout_redirect_uri
    simp [ht, hc, hu]

/-- Witness for C3: a request with client `"abc"` and its registered URI
succeeds with the application resolved, and the same redirect URI without any
client identification fails with `InvalidOIDCClientError`. -/
theorem redirect_requires_client_witness :
    (some exApp : Option Application).isSome = true ∧
    validate_logout_request exEnv "alice" none none (some "https://app.example/done")
      = Except.error (PyExc.oidc OIDCError.InvalidOIDCClientError) :=
  ⟨(redirect_requires_client exEnv "alice" none (some "abc")
      (some "https://app.example/done") true (some "https://app.example/done") (some exApp)).1
      rfl rfl,
   (redirect_requires_client exEnv "alice" none none (some "https://app.example/done")
      true none none).2 rfl rfl rfl⟩

/-- C4: a `post_logout_redirect_uri` with scheme `http` on a resolved
non-confidential client is rejected with `InvalidRedirectURI` ("http is only
allowed with confidential clients."), whichever way the client was resolved
(explicit `client_id`, the validated ID token's client, or both in
agreement), and even when that exact URI is in the client's registered
post-logout redirect list: the scheme check precedes the registration
check. -/
theorem http_scheme_public_client_rejected : ∀ (env : Env) (user : String)
    (hint cid uri : Option String) (app : Application),
    truthy uri = true →
    schemeOf (optval uri) = "http" →
    app.client_type ≠ "confidential" →
    ((truthy hint = false ∧ truthy cid = true ∧ env.findClient (optval cid) = some app) ∨
     (truthy cid = false ∧ truthy hint = true ∧
       (∃ tok, env.load_id_token (optval hint) = some tok ∧ tok.application = app)) ∨
     (truthy hint = true ∧ truthy cid = true ∧
       (∃ tok, env.load_id_token (optval hint) = some tok ∧
         tok.application.client_id = optval cid) ∧
       env.findClient (optval cid) = some app)) →
    validate_logout_request env user hint cid uri
      = Except.error (PyExc.oidc
          (OIDCError.InvalidOIDCRedirectURIError "http is only allowed with confidential clients.")) := by
  intro env user hint cid uri app hu hscheme htype hres
  have hpost : validate_post_logout_redirect_uri uri (some app)
      = Except.error (PyExc.oidc
          (OIDCError.InvalidOIDCRedirectURIError "http is only allowed with confidential clients.")) := by
    unfold validate_post_logout_redirect_uri
    rw [if_pos hu, hscheme]
    dsimp only
    have hne : ¬(("http" : String) = "") := by decide
    rw [if_neg hne, if_pos ⟨rfl, htype⟩]
  rcases hres with ⟨ht, hc, hf⟩ | ⟨hc, ht, tok, hl, happ⟩ | ⟨ht, hc, ⟨tok, hl, hmatch⟩, hf⟩
  · unfold validate_logout_request check_id_token_hint resolve_application
    simp [ht, hc, hf, hpost]
  · unfold validate_logout_request check_id_token_hint resolve_application
    subst happ
    simp [ht, hc, hl, hpost]
  · unfold validate_logout_request check_id_token_hint resolve_application
    simp [ht, hc, hl, hmatch, hf, hpost]

/-- Witness for C4: the public client `"pub"` has `http://app.example/out`
registered as a post-logout redirect URI, yet the request is rejected with
the http-scheme error. -/
theorem http_scheme_public_client_rejected_witness :
    exPublicApp.post_logout_redirect_uri_allowed "http://app.example/out" = true ∧
    validate_logout_request exEnv "alice" none (some "pub") (some "http://app.example/out")
      = Except.error (PyExc.oidc
          (OIDCError.InvalidOIDCRedirectURIError "http is only allowed with confidential clients.")) :=
  ⟨rfl,
   http_scheme_public_client_rejected exEnv "alice" none (some "pub")
     (some "http://app.example/out") exPublicApp rfl rfl (by decide)
     (Or.inl ⟨rfl, rfl, rfl⟩)⟩

/-- When the application is resolved whenever a truthy redirect URI is
present, the termination step never produces a failure response. -/
theorem do_logout_not_failure {env : Env} {a : Option Application} {uri st : Option String}
    (h : truthy uri = true → a.isSome = true) :
    isFailure (do_logout env a uri st).1 = false := by
  by_cases hu : truthy uri = true
  · obtain ⟨app, rfl⟩ := Option.isSome_iff_exists.mp (h hu)
    by_cases hs : truthy st = true
    · simp [do_logout, hu, hs, isFailure]
    · simp [do_logout, hu, hs, isFailure]
  · simp [do_logout, hu, isFailure]

/-- C6: session termination is atomic with respect to validation failures —
in both entry points a failing response (a rendered error, or an exception
escaping the view) never has the session ended, and the session is ended
exactly at the single termination point `do_logout`. -/
theorem session_end_atomic : ∀ (env : Env) (user : String)
    (p : LogoutParams) (f : ConfirmFormData),
    (isFailure (rp_get env user p).1 && (rp_get env user p).2) = false ∧
    (isFailure (rp_form_valid env user f).1 && (rp_form_valid env user f).2) = false ∧
    (∀ (a : Option Application) (uri st : Option String),
      (do_logout env a uri st).2 = true) := by
  intro env user p f
  refine ⟨?_, ?_, ?_⟩
  · unfold rp_get
    cases hv : validate_logout_request env user p.id_token_hint p.client_id
        p.post_logout_redirect_uri with
    | error e =>
      cases e with
      | oidc e0 => simp [isFailure]
      | doesNotExist => simp [isFailure]
      | attributeError => simp [isFailure]
    | ok res =>
      obtain ⟨b, r, a⟩ := res
      obtain ⟨hru, hpost⟩ := validate_ok_inversion hv
      subst hru
      cases b with
      | true => simp [isFailure]
      | false =>
        have hnf := @do_logout_not_failure env a p.post_logout_redirect_uri p.state
          (fun hr => validate_post_ok_isSome hpost hr)
        simp [hnf]
  · unfold rp_form_valid
    cases hv : validate_logout_request env user f.id_token_hint f.client_id
        f.post_logout_redirect_uri with
    | error e =>
      cases e with
      | oidc e0 => simp [isFailure]
      | doesNotExist => simp [isFailure]
      | attributeError => simp [isFailure]
    | ok res =>
      obtain ⟨b, r, a⟩ := res
      obtain ⟨hru, hpost⟩ := validate_ok_inversion hv
      subst hru
      have hnf := @do_logout_not_failure env a f.post_logout_redirect_uri f.state
        (fun hr => validate_post_ok_isSome hpost hr)
      cases b with
      | true =>
        by_cases hallow : f.allow = true
        · simp [hallow, hnf]
        · simp [hallow, isFailure]
      | false => simp [hnf]
  · intro a uri st
    by_cases hu : truthy uri = true
    · cases a <;> by_cases hs : truthy st = true <;> simp [do_logout, hu, hs]
    · simp [do_logout, hu]

/-- C7 counterexample: a logout request whose supplied `client_id` matches no
registered client does *not* surface as a rendered error response — the
client store's `DoesNotExist` exception is not an `OIDCError` and escapes the
error-rendering path. -/
theorem unknown_client_id_escapes :
    rp_get exEnv "alice" ⟨none, some "missing", none, none⟩
      = (Response.uncaught PyExc.doesNotExist, false) ∧
    isErrorResponse (rp_get exEnv "alice" ⟨none, some "missing", none, none⟩).1 = false :=
  ⟨rfl, rfl⟩

/-- C7 (amended): every `OIDCError` failure of the validator — and the
`LogoutDenied` refusal — surfaces in both entry points as a rendered error
response carrying that failure kind's status code (only the non-`OIDCError`
`DoesNotExist` raised for an unknown supplied `client_id` escapes this
path). -/
theorem oidc_failures_render_error : ∀ (env : Env) (user : String)
    (p : LogoutParams) (f : ConfirmFormData) (e : OIDCError) (b : Bool)
    (r : Option String) (a : Option Application),
    (validate_logout_request env user p.id_token_hint p.client_id p.post_logout_redirect_uri
        = Except.error (PyExc.oidc e) →
      rp_get env user p = (Response.errorResponse e e.status_code, false)) ∧
    (validate_logout_request env user f.id_token_hint f.client_id f.post_logout_redirect_uri
        = Except.error (PyExc.oidc e) →
      rp_form_valid env user f = (Response.errorResponse e e.status_code, false)) ∧
    (validate_logout_request env user f.id_token_hint f.client_id f.post_logout_redirect_uri
        = Except.ok (b, (r, a)) → b = true → f.allow = false →
      rp_form_valid env user f
        = (Response.errorResponse OIDCError.LogoutDenied OIDCError.LogoutDenied.status_code, false)) := by
  intro env user p f e b r a
  refine ⟨?_, ?_, ?_⟩
  · intro h
    simp [rp_get, h]
  · intro h
    simp [rp_form_valid, h]
  · intro h hb hallow
    simp [rp_form_valid, h, hb, hallow]

/-- Witness for C7 (amended): an unparseable hint renders
`InvalidIDTokenError` with its status code in both entry points, and a
declined confirmation renders `LogoutDenied` with its status code. -/
theorem oidc_failures_render_error_witness :
    rp_get exEnv "alice" ⟨some "bad", none, none, none⟩
      = (Response.errorResponse OIDCError.InvalidIDTokenError 400, false) ∧
    rp_form_valid exEnv "alice" ⟨some "bad", none, none, none, true⟩
      = (Response.errorResponse OIDCError.InvalidIDTokenError 400, false) ∧
    rp_form_valid exEnv "alice" ⟨none, none, none, none, false⟩
      = (Response.errorResponse OIDCError.LogoutDenied 403, false) :=
  ⟨(oidc_failures_render_error exEnv "alice" ⟨some "bad", none, none, none⟩
      ⟨some "bad", none, none, none, true⟩ OIDCError.InvalidIDTokenError true none none).1 rfl,
   (oidc_failures_render_error exEnv "alice" ⟨some "bad", none, none, none⟩
      ⟨some "bad", none, none, none, true⟩ OIDCError.InvalidIDTokenError true none none).2.1 rfl,
   (oidc_failures_render_error exEnv "alice" ⟨some "bad", none, none, none⟩
      ⟨none, none, none, none, false⟩ OIDCError.InvalidIDTokenError true none none).2.2 rfl rfl rfl⟩

end Oidc
